import Mathlib

/-!
# Navigation dropdown controller and geometry sync of `src/script.js`

A shallow embedding of the page script.  DOM elements are records, the node
lists `menuItems` and `dropdowns` are lists (an element is named by its
position), attributes that the script only ever compares with the string
`'true'` are booleans, and everything the script reads from the browser
(pointer and focus position, rendered sizes) is an explicit input.  A finite
double is the rational it denotes; the additions of `measureHeight` and
`parseFloat` round to the nearest double.
-/

namespace Dropdown

/-- A trigger element matched by `.menu .menu-item[data-dropdown]`.
`name` is `dataset.dropdown`, `expanded` is `aria-expanded === 'true'`,
`pinned` is `dataset.pinned === 'true'`. -/
structure MenuButton where
  name : String
  expanded : Bool
  pinned : Bool
deriving DecidableEq

/-- A panel matched by `.dropdown`.  `forName` is `dataset.for` (absent when the
attribute is missing), `isOpen` is `classList.contains('open')`, `ariaHidden` is
`aria-hidden === 'true'`, `top` is the inline placement written by `openFor`
(`position: absolute; left: 0; right: 0; top: <n>px`), `none` while unplaced. -/
structure DropdownPanel where
  forName : Option String
  isOpen : Bool
  ariaHidden : Bool
  top : Option Nat
deriving DecidableEq

/-- The page as the controller sees it: the two node lists, the custom
property `--dropdown-offset` in pixels, and whether
`document.querySelector('.main-nav')` found an element. -/
structure State where
  menuItems : List MenuButton
  dropdowns : List DropdownPanel
  offset : ℚ
  navFound : Bool
deriving DecidableEq

/-- What the handlers read from the browser when they run.  `height k` is
`getBoundingClientRect().height || 0` of panel `k`, `panelHover k` is
`dd.matches(':hover')`, `activeIsButton i` is `document.activeElement === btn`,
`panelContainsActive k` is `dd.contains(document.activeElement)`,
`targetInNav` is `nav.contains(e.target)` for a click.  `buttonHover i`
(the pointer is over button `i`) is a fact of the page that no handler reads. -/
structure Env where
  navOffsetHeight : Nat
  height : Nat → ℚ
  panelHover : Nat → Bool
  buttonHover : Nat → Bool
  activeIsButton : Nat → Bool
  panelContainsActive : Nat → Bool
  targetInNav : Bool

/-- The lookup `dropdownMap.get(name)` on
`new Map(dropdowns.map(dd => [dd.dataset.for, dd]))`: the position of the
panel stored under `name`; a later panel with the same key replaces an
earlier one. -/
def dropdownMapGet : List DropdownPanel → String → Option Nat
  | [], _ => none
  | d :: ds, name =>
    match dropdownMapGet ds name with
    | some k => some (k + 1)
    | none => if d.forName = some name then some 0 else none

/-- The search `menuItems.find(b => b.dataset.dropdown === name)`: position of
the first button with that name. -/
def findButton : List MenuButton → String → Option Nat
  | [], _ => none
  | b :: bs, name =>
    if b.name = name then some 0
    else match findButton bs name with
      | some i => some (i + 1)
      | none => none

/-- The per-panel body of `closeAll`: remove class `open`, set `aria-hidden`. -/
def closePanel (d : DropdownPanel) : DropdownPanel :=
  { d with isOpen := false, ariaHidden := true }

/-- The per-button body of `closeAll`. -/
def closeButton (exceptPinned : Bool) (btn : MenuButton) : MenuButton :=
  if exceptPinned && btn.pinned then
    { btn with expanded := true }
  else
    { btn with expanded := false, pinned := false }

/-- The function `closeAll(exceptPinned = true)`. -/
def closeAll (exceptPinned : Bool) (s : State) : State :=
  { s with
    dropdowns := s.dropdowns.map closePanel
    menuItems := s.menuItems.map (closeButton exceptPinned)
    offset := 0 }

/-- The function `setOffsetFor(dd)` for the panel at position `dd`. -/
def setOffsetFor (env : Env) (dd : Nat) (s : State) : State :=
  { s with offset := env.height dd }

/-- The writes of `openFor` to the panel: inline placement below the nav,
class `open`, `aria-hidden = 'false'`. -/
def openPanel (env : Env) (d : DropdownPanel) : DropdownPanel :=
  { d with top := some env.navOffsetHeight, isOpen := true, ariaHidden := false }

/-- The writes of `openFor` to the button: `aria-expanded = 'true'`, then
`dataset.pinned` set or deleted. -/
def markButton (pinned : Bool) (b : MenuButton) : MenuButton :=
  { b with expanded := true, pinned := pinned }

/-- The function `openFor(name, btn, { pinned })`, with `btn` the position of
the button.  The deferred `setOffsetFor(dd)` it schedules is the trigger
`measure`. -/
def openFor (env : Env) (name : String) (btn : Nat) (pinned : Bool) (s : State) : State :=
  match dropdownMapGet s.dropdowns name with
  | none => s
  | some dd =>
    let s1 := closeAll true s
    { s1 with
      dropdowns := s1.dropdowns.modify (openPanel env) dd
      menuItems := s1.menuItems.modify (markButton pinned) btn }

/-- The offset left by the loop of `reposition`: every open panel, in document
order, publishes its height. -/
def repositionOffset (env : Env) : Nat → List DropdownPanel → ℚ → ℚ
  | _, [], off => off
  | k, d :: ds, off => repositionOffset env (k + 1) ds (if d.isOpen then env.height k else off)

/-- The per-panel write of `reposition`: an open panel gets its `top`
recomputed from the nav height. -/
def placePanel (env : Env) (d : DropdownPanel) : DropdownPanel :=
  if d.isOpen then { d with top := some env.navOffsetHeight } else d

/-- The function `reposition()`. -/
def reposition (env : Env) (s : State) : State :=
  { s with
    dropdowns := s.dropdowns.map (placePanel env)
    offset := repositionOffset env 0 s.dropdowns s.offset }

/-- The events that run controller code.  `click` is a click on a menu
button, `documentClick` a click on anything else.  `mouseleave`, `blur` and
`panelMouseleave` only schedule a timer (a panel's `mouseleave` schedules it
unless its button is pinned at that moment); the timers are named by their
callback: `leaveTimer` and `blurTimer` for a button, `panelLeaveTimer` for a
panel.  `measure` is the deferred `setOffsetFor` scheduled by `openFor`.
Pending timers are not part of the state: a history may fire a callback at any
point, which covers every schedule the browser can produce. -/
inductive Trigger where
  | click (btn : Nat)
  | mouseenter (btn : Nat)
  | focus (btn : Nat)
  | mouseleave (btn : Nat)
  | leaveTimer (btn : Nat)
  | blur (btn : Nat)
  | blurTimer (btn : Nat)
  | escapeButton (btn : Nat)
  | panelMouseenter (dd : Nat)
  | panelMouseleave (dd : Nat)
  | panelLeaveTimer
  | escapePanel (dd : Nat)
  | documentClick
  | reposition
  | measure (dd : Nat)
deriving DecidableEq

/-- The click listener of `document`: `if (!nav.contains(e.target)) closeAll(false)`. -/
def documentClick (env : Env) (s : State) : State :=
  if env.targetInNav then s else closeAll false s

/-- All listeners of one event, run in registration order.  The per-button
listeners exist only for a button whose `dataset.dropdown` is non-empty
(`if (!name) return;`); the second `keydown` listener (line 127) exists for
every button. -/
def handle (env : Env) (s : State) : Trigger → State
  | .click i =>
    match s.menuItems[i]? with
    | none => s
    | some btn =>
      let s1 :=
        if btn.name = "" then s
        else if btn.expanded then closeAll false s
        else openFor env btn.name i true s
      documentClick env s1
  | .mouseenter i =>
    match s.menuItems[i]? with
    | none => s
    | some btn =>
      if btn.name = "" then s
      else if btn.pinned then s
      else openFor env btn.name i false s
  | .focus i =>
    match s.menuItems[i]? with
    | none => s
    | some btn =>
      if btn.name = "" then s
      else if btn.pinned then s
      else openFor env btn.name i false s
  | .mouseleave _ => s
  | .blur _ => s
  | .panelMouseleave _ => s
  | .leaveTimer i =>
    match s.menuItems[i]? with
    | none => s
    | some btn =>
      if btn.name = "" then s
      else match dropdownMapGet s.dropdowns btn.name with
        | none => s
        | some dd =>
          if btn.pinned then s
          else if !env.panelHover dd && !env.activeIsButton i then closeAll true s
          else s
  | .blurTimer i =>
    match s.menuItems[i]? with
    | none => s
    | some btn =>
      if btn.name = "" then s
      else match dropdownMapGet s.dropdowns btn.name with
        | none => s
        | some dd =>
          if btn.pinned then s
          else if !env.panelContainsActive dd then closeAll true s
          else s
  | .escapeButton i =>
    match s.menuItems[i]? with
    | none => s
    | some btn =>
      let s1 := if btn.name = "" then s else closeAll true s
      closeAll false s1
  | .panelMouseenter k =>
    match s.dropdowns[k]? with
    | none => s
    | some dd =>
      match dd.forName with
      | none => s
      | some name =>
        match findButton s.menuItems name with
        | none => s
        | some i =>
          match s.menuItems[i]? with
          | none => s
          | some btn => openFor env name i btn.pinned s
  | .panelLeaveTimer => closeAll true s
  | .escapePanel k =>
    match s.dropdowns[k]? with
    | none => s
    | some _ => closeAll false s
  | .documentClick => documentClick env s
  | .reposition => reposition env s
  | .measure k =>
    match s.dropdowns[k]? with
    | none => s
    | some _ => setOffsetFor env k s

/-- The guards of `ready`: listeners are registered only when the nav element
was found and both node lists are non-empty. -/
def ready (s : State) : Bool :=
  s.navFound && !s.menuItems.isEmpty && !s.dropdowns.isEmpty

/-- One event handled to completion. -/
def step (env : Env) (s : State) (t : Trigger) : State :=
  if ready s then handle env s t else s

/-- A finite history: each event with the environment it ran in. -/
def run (s : State) (evs : List (Env × Trigger)) : State :=
  evs.foldl (fun st ev => step ev.1 st ev.2) s

/-- The flag `open` of the panel registered under `name` (false when no panel
is registered under it). -/
def panelOpen (s : State) (name : String) : Bool :=
  match dropdownMapGet s.dropdowns name with
  | none => false
  | some k =>
    match s.dropdowns[k]? with
    | none => false
    | some d => d.isOpen

/-- Number of panels carrying class `open`. -/
def openCount (s : State) : Nat :=
  s.dropdowns.countP (fun d => d.isOpen)

/-- A page with buttons "services" and "about" and their two panels, all
closed, nothing expanded or pinned. -/
def demoPage : State :=
  { menuItems := [⟨"services", false, false⟩, ⟨"about", false, false⟩]
    dropdowns := [⟨some "services", false, true, none⟩, ⟨some "about", false, true, none⟩]
    offset := 0
    navFound := true }

/-- An environment with a 64px navigation bar, 200px panels, the pointer and
the focus away from every button and panel, clicks landing inside the nav. -/
def demoEnv : Env :=
  { navOffsetHeight := 64
    height := fun _ => 200
    panelHover := fun _ => false
    buttonHover := fun _ => false
    activeIsButton := fun _ => false
    panelContainsActive := fun _ => false
    targetInNav := true }

/-- A history in which no panel is ever opened while another button is
pinned: enter and leave "about" twice, enter "services", first leave timer of
"about", click "services", second leave timer of "about". -/
def raceHistory : List (Env × Trigger) :=
  [(demoEnv, .mouseenter 1), (demoEnv, .mouseleave 1),
   (demoEnv, .mouseenter 1), (demoEnv, .mouseleave 1),
   (demoEnv, .mouseenter 0), (demoEnv, .leaveTimer 1),
   (demoEnv, .click 0), (demoEnv, .leaveTimer 1)]

/-- The demo environment with the pointer back over the "about" button. -/
def reentryEnv : Env :=
  { demoEnv with buttonHover := fun i => i == 1 }

/-- Rapid re-entry: the pointer enters "about", leaves it (the 120ms timer is
scheduled) and is back over "about" before the timer fires. -/
def reentryHistory : List (Env × Trigger) :=
  [(demoEnv, .mouseenter 1), (demoEnv, .mouseleave 1), (reentryEnv, .mouseenter 1)]

/-- The pointer enters "about" and leaves it; the 120ms timer is scheduled. -/
def hoverHistory : List (Env × Trigger) :=
  [(demoEnv, .mouseenter 1), (demoEnv, .mouseleave 1)]

/-- The demo environment with the focus inside the "about" panel. -/
def focusInPanelEnv : Env :=
  { demoEnv with panelContainsActive := fun k => k == 1 }

/-- The demo environment with the pointer over the "about" panel. -/
def panelHoverEnv : Env :=
  { demoEnv with panelHover := fun k => k == 1 }

/-- Every pinned button is expanded. -/
def PinnedExpanded (s : State) : Prop :=
  ∀ (i : Nat) (b : MenuButton), s.menuItems[i]? = some b → b.pinned = true → b.expanded = true

/-- No two buttons claim the same name. -/
def NamesNodup (s : State) : Prop :=
  (s.menuItems.map (fun b => b.name)).Nodup

/-- For every unpinned button, `expanded` equals the `open` flag of the panel
registered under the button's name. -/
def Mirror (s : State) : Prop :=
  ∀ (i : Nat) (b : MenuButton), s.menuItems[i]? = some b → b.pinned = false →
    b.expanded = panelOpen s b.name

end Dropdown

namespace Geometry

/-- A JavaScript number: a finite double, given by the rational it denotes,
an infinity, or `NaN`.  The sign of zero is not kept: the script only adds,
compares and prints its numbers, and `-0` prints as `0`. -/
inductive JsNumber where
  | finite (q : ℚ)
  | infinity (negative : Bool)
  | nan
deriving DecidableEq

/-- Auxiliary recursion of `natLog2`; the first argument bounds the depth. -/
def log2Aux : Nat → Nat → Nat
  | 0, _ => 0
  | fuel + 1, n => if 2 ≤ n then log2Aux fuel (n / 2) + 1 else 0

/-- The position of the highest set bit of `n` (0 for `n ≤ 1`). -/
def natLog2 (n : Nat) : Nat := log2Aux n n

/-- The greatest `k` with `2 ^ k ≤ x`, for positive `x`. -/
def floorLog2 (x : ℚ) : ℤ :=
  let k : ℤ := (natLog2 x.num.natAbs : ℤ) - (natLog2 x.den : ℤ)
  if (2 : ℚ) ^ k ≤ x then k else k - 1

/-- Nearest integer, ties to the even one. -/
def roundHalfEven (x : ℚ) : ℤ :=
  let f := ⌊x⌋
  if x - f < 1 / 2 then f
  else if 1 / 2 < x - f then f + 1
  else if f % 2 = 0 then f else f + 1

/-- The double nearest to a real value (IEEE 754 binary64, round to nearest,
ties to even): 53 significant bits, exponent of the last place at least
`-1074`, overflow to an infinity from `2 ^ 1024` on. -/
def toDouble (x : ℚ) : JsNumber :=
  if x = 0 then .finite 0
  else
    let e : ℤ := max (floorLog2 |x| - 52) (-1074)
    let y : ℚ := roundHalfEven (|x| / 2 ^ e) * 2 ^ e
    if (2 : ℚ) ^ (1024 : ℤ) ≤ y then .infinity (decide (x < 0))
    else .finite (if x < 0 then -y else y)

/-- The operator `a + b` on numbers. -/
def jsAdd : JsNumber → JsNumber → JsNumber
  | .nan, _ => .nan
  | _, .nan => .nan
  | .infinity s, .infinity t => if s = t then .infinity s else .nan
  | .infinity s, .finite _ => .infinity s
  | .finite _, .infinity t => .infinity t
  | .finite a, .finite b => toDouble (a + b)

/-- The operator `a || b` on numbers: `a` unless it is zero or `NaN`. -/
def jsOr (a b : JsNumber) : JsNumber :=
  match a with
  | .nan => b
  | .finite q => if q = 0 then b else a
  | .infinity _ => a

/-- The function `Math.round`: nearest integer, ties upwards. -/
def jsRound : JsNumber → JsNumber
  | .finite q => .finite (⌊q + 1 / 2⌋ : ℤ)
  | n => n

/-- The function `Math.ceil`. -/
def jsCeil : JsNumber → JsNumber
  | .finite q => .finite (⌈q⌉ : ℤ)
  | n => n

/-- The function `Math.max` on two numbers. -/
def jsMax : JsNumber → JsNumber → JsNumber
  | .nan, _ => .nan
  | _, .nan => .nan
  | .infinity false, _ => .infinity false
  | _, .infinity false => .infinity false
  | .infinity true, b => b
  | a, .infinity true => a
  | .finite a, .finite b => .finite (max a b)

/-- The function `parseFloat` on a computed length: `none` when the text does
not start with a number (`NaN`), otherwise the double nearest to the decimal
written there. -/
def parseFloat : Option ℚ → JsNumber
  | none => .nan
  | some d => toDouble d

/-- The values the script assigns to inline style properties: the empty
string, `auto`, a number followed by `px`, a percentage, or a keyword. -/
inductive CssValue where
  | empty
  | auto
  | px (n : JsNumber)
  | percent (n : Nat)
  | ident (s : String)
deriving DecidableEq

/-- The inline style properties the script writes. -/
structure Style where
  height : CssValue
  width : CssValue
  maxWidth : CssValue
  display : CssValue
  objectFit : CssValue
deriving DecidableEq

/-- Inline styles of the page, by element identity. -/
abbrev Store := Nat → Style

/-- An element as the geometry routines see it: its identity, whether
`tagName === 'IMG'`, the first `<img>` below it (`querySelector('img')`),
whether `querySelector('p, h1, h2, h3, .lead, ul, ol, .text')` finds
something, the length of its trimmed `textContent`, and what the browser
reports when the routine measures it: `scrollHeight`, the height of
`getBoundingClientRect()` (finite doubles), and the decimal at the start of the
computed `borderTopWidth` and `borderBottomWidth` (`none` when there is no
number there). -/
structure Element where
  id : Nat
  isImg : Bool
  img : Option Nat
  hasTextBlock : Bool
  textLength : Nat
  scrollHeight : ℚ
  rectHeight : ℚ
  borderTopWidth : Option ℚ
  borderBottomWidth : Option ℚ
deriving DecidableEq

/-- A grid matched by `.diogene-grid, .insalubre-grid`, given by the results
of the queries `findPair` runs on it. -/
structure Grid where
  children : List Element
  figureQuery : Option Element
  textQuery : Option Element
  parentElement : Nat → Option Element

/-- The result `{ textCol, imgCol }` of `findPair`. -/
structure Pair where
  textCol : Option Element
  imgCol : Option Element

/-- Assignment to `el.style.height` for the element `id`. -/
def setHeight (st : Store) (id : Nat) (v : CssValue) : Store :=
  fun x => if x = id then { st x with height := v } else st x

/-- The breakpoint constant of the contact block (`const breakpoint = 900`). -/
def contactBreakpoint : Nat := 900

/-- The function `syncHeight` of the contact block.  `textEl` and `imagesCol`
are the results of `document.querySelector('.presentation-text')` and
`document.querySelector('.contact-images')`; `rectHeight` is
`textEl.getBoundingClientRect().height`. -/
def syncHeight (innerWidth : Nat) (textEl imagesCol : Option Nat) (rectHeight : ℚ)
    (st : Store) : Store :=
  match textEl, imagesCol with
  | some _, some c =>
    if innerWidth ≤ contactBreakpoint then setHeight st c .empty
    else setHeight st c (.px (jsRound (.finite rectHeight)))
  | _, _ => st

/-- The breakpoint constant of the grids block (`const breakpoint = 940`). -/
def gridBreakpoint : Nat := 940

/-- The function `isTextColumn`. -/
def isTextColumn (el : Option Element) : Bool :=
  match el with
  | none => false
  | some e =>
    if e.img.isSome then false
    else e.hasTextBlock || decide (20 < e.textLength)

/-- The function `findPair`. -/
def findPair (grid : Grid) : Pair :=
  let imgCol0 := grid.children.find? (fun c => c.img.isSome)
  let textCol0 := grid.children.find?
    (fun c => isTextColumn (some c) && !decide (some c.id = imgCol0.map (fun e => e.id)))
  let imgCol1 := match imgCol0 with
    | some c => some c
    | none => grid.figureQuery
  let imgCol2 := match imgCol1 with
    | some c =>
      if c.isImg then
        match grid.parentElement c.id with
        | some q => some q
        | none => some c
      else some c
    | none => none
  let textCol1 := match textCol0 with
    | some t => some t
    | none => grid.textQuery
  { textCol := textCol1, imgCol := imgCol2 }

/-- The function `measureHeight`: `scroll + bt + bb`, two double additions. -/
def measureHeight (el : Option Element) : JsNumber :=
  match el with
  | none => .finite 0
  | some e =>
    let scroll := jsCeil (jsOr (jsOr (.finite e.scrollHeight) (.finite e.rectHeight)) (.finite 0))
    let bt := jsOr (parseFloat e.borderTopWidth) (.finite 0)
    let bb := jsOr (parseFloat e.borderBottomWidth) (.finite 0)
    jsAdd (jsAdd scroll bt) bb

/-- The height `h` computed in `syncGrids` for a text column:
`Math.max(0, measureHeight(textCol), Math.round(rect.height))`. -/
def textHeight (t : Element) : JsNumber :=
  jsMax (.finite 0) (jsMax (measureHeight (some t)) (jsRound (.finite t.rectHeight)))

/-- The writes of the small-screen loop to the image `i` of a column:
`height`, `width` and `maxWidth` become empty. -/
def clearImage (st : Store) (i : Nat) : Store :=
  fun x => if x = i then
    { st x with height := .empty, width := .empty, maxWidth := .empty }
  else st x

/-- The writes of the large-screen loop to the image `i` of a column. -/
def fillImage (st : Store) (i : Nat) : Store :=
  fun x => if x = i then
    { st x with display := .ident "block", height := .percent 100, width := .auto,
                maxWidth := .percent 100, objectFit := .ident "cover" }
  else st x

/-- The callback of the small-screen loop of `syncGrids`. -/
def clearGrid (st : Store) (g : Grid) : Store :=
  match (findPair g).imgCol with
  | none => st
  | some c =>
    let st1 := setHeight st c.id .empty
    match c.img with
    | none => st1
    | some i => clearImage st1 i

/-- The callback of the large-screen loop of `syncGrids`. -/
def sizeGrid (st : Store) (g : Grid) : Store :=
  match (findPair g).textCol, (findPair g).imgCol with
  | some t, some c =>
    let st1 := setHeight st c.id .auto
    let st2 := setHeight st1 c.id (.px (textHeight t))
    match c.img with
    | none => st2
    | some i => fillImage st2 i
  | _, _ => st

/-- The function `syncGrids`; `grids` is the node list of
`document.querySelectorAll('.diogene-grid, .insalubre-grid')`. -/
def syncGrids (innerWidth : Nat) (grids : List Grid) (st : Store) : Store :=
  if grids.isEmpty then st
  else if innerWidth ≤ gridBreakpoint then grids.foldl clearGrid st
  else grids.foldl sizeGrid st

/-- The inline styles the large-screen callback writes for grid `g` include a
style of element `x`. -/
def touches (g : Grid) (x : Nat) : Bool :=
  match (findPair g).textCol, (findPair g).imgCol with
  | some _, some c => decide (c.id = x) || decide (c.img = some x)
  | _, _ => false

/-- The figure of the demo grid: element 1, holding image 3. -/
def demoFigure : Element :=
  ⟨1, false, some 3, false, 0, 300, 300, some 0, some 0⟩

/-- The text column of the demo grid: element 2, its content 412px high
(412.4px rendered) inside borders of 0.666667px. -/
def demoText : Element :=
  ⟨2, false, none, true, 250, 412, 412.4, some 0.666667, some 0.666667⟩

/-- A two-column grid: `demoFigure` and `demoText`. -/
def demoGrid : Grid :=
  { children := [demoFigure, demoText]
    figureQuery := some demoFigure
    textQuery := none
    parentElement := fun _ => none }

/-- An inner grid element (element 10) that is also the first child of an
outer grid; image 30 is its direct child. -/
def innerGridElement : Element :=
  ⟨10, false, some 30, false, 0, 120, 120, some 0, some 0⟩

/-- The image of the inner grid, a direct child of the inner grid element. -/
def innerImage : Element :=
  ⟨30, true, none, false, 0, 100, 100, some 0, some 0⟩

/-- The text column of the inner grid, 120px high. -/
def innerText : Element :=
  ⟨12, false, none, true, 80, 120, 120, some 0, some 0⟩

/-- The text column of the outer grid, 300px high. -/
def outerText : Element :=
  ⟨11, false, none, true, 200, 300, 300, some 0, some 0⟩

/-- The outer grid: its children are the inner grid element and `outerText`. -/
def outerGrid : Grid :=
  { children := [innerGridElement, outerText]
    figureQuery := some innerImage
    textQuery := none
    parentElement := fun i => if i = 30 then some innerGridElement else none }

/-- The inner grid: its children are `innerImage` and `innerText`; the
fallback query finds the image, whose parent is the inner grid element. -/
def innerGrid : Grid :=
  { children := [innerImage, innerText]
    figureQuery := some innerImage
    textQuery := none
    parentElement := fun i => if i = 30 then some innerGridElement else none }

/-- A page on which every inline style is still empty. -/
def emptyStore : Store :=
  fun _ => ⟨.empty, .empty, .empty, .empty, .empty⟩

end Geometry

namespace Dropdown

/-! ## Elementary facts about the operations -/

@[simp] theorem closeAll_dropdowns (p : Bool) (s : State) :
    (closeAll p s).dropdowns = s.dropdowns.map closePanel := rfl

@[simp] theorem closeAll_menuItems (p : Bool) (s : State) :
    (closeAll p s).menuItems = s.menuItems.map (closeButton p) := rfl

@[simp] theorem closeAll_offset (p : Bool) (s : State) : (closeAll p s).offset = 0 := rfl

@[simp] theorem closePanel_isOpen (d : DropdownPanel) : (closePanel d).isOpen = false := rfl

@[simp] theorem closePanel_forName (d : DropdownPanel) : (closePanel d).forName = d.forName := rfl

@[simp] theorem closeButton_name (p : Bool) (b : MenuButton) : (closeButton p b).name = b.name := by
  unfold closeButton; split <;> rfl

theorem closeButton_pinned (p : Bool) (b : MenuButton) :
    (closeButton p b).pinned = (p && b.pinned) := by
  unfold closeButton; cases p <;> cases h : b.pinned <;> simp [h]

theorem closeButton_expanded (p : Bool) (b : MenuButton) :
    (closeButton p b).expanded = (p && b.pinned) := by
  unfold closeButton; cases p <;> cases h : b.pinned <;> simp [h]

@[simp] theorem markButton_expanded (p : Bool) (b : MenuButton) :
    (markButton p b).expanded = true := rfl

@[simp] theorem markButton_pinned (p : Bool) (b : MenuButton) : (markButton p b).pinned = p := rfl

@[simp] theorem markButton_name (p : Bool) (b : MenuButton) : (markButton p b).name = b.name := rfl

@[simp] theorem openPanel_isOpen (env : Env) (d : DropdownPanel) :
    (openPanel env d).isOpen = true := rfl

@[simp] theorem openPanel_forName (env : Env) (d : DropdownPanel) :
    (openPanel env d).forName = d.forName := rfl

/-- A key found in the registry names a panel of the list carrying that key. -/
theorem dropdownMapGet_some {l : List DropdownPanel} {name : String} {k : Nat}
    (h : dropdownMapGet l name = some k) : ∃ d, l[k]? = some d ∧ d.forName = some name := by
  induction l generalizing k with
  | nil => simp [dropdownMapGet] at h
  | cons d ds ih =>
    unfold dropdownMapGet at h
    cases hr : dropdownMapGet ds name with
    | some j =>
      rw [hr] at h
      simp only [Option.some.injEq] at h
      subst h
      simpa using ih hr
    | none =>
      rw [hr] at h
      by_cases hd : d.forName = some name
      · simp only [hd, if_true, Option.some.injEq] at h
        subst h
        exact ⟨d, by simp, hd⟩
      · simp [hd] at h

/-- The registry lookup only depends on the keys of the panels. -/
theorem dropdownMapGet_map (f : DropdownPanel → DropdownPanel)
    (hf : ∀ d, (f d).forName = d.forName) (l : List DropdownPanel) (name : String) :
    dropdownMapGet (l.map f) name = dropdownMapGet l name := by
  induction l with
  | nil => rfl
  | cons d ds ih => simp [dropdownMapGet, ih, hf]

theorem dropdownMapGet_modify (f : DropdownPanel → DropdownPanel)
    (hf : ∀ d, (f d).forName = d.forName) (l : List DropdownPanel) (n : Nat) (name : String) :
    dropdownMapGet (l.modify f n) name = dropdownMapGet l name := by
  induction l generalizing n with
  | nil => simp
  | cons d ds ih =>
    cases n with
    | zero => simp [dropdownMapGet, hf]
    | succ n =>
      rw [List.modify_succ_cons]
      simp only [dropdownMapGet, ih]

theorem findButton_some {l : List MenuButton} {name : String} {i : Nat}
    (h : findButton l name = some i) : ∃ b, l[i]? = some b ∧ b.name = name := by
  induction l generalizing i with
  | nil => simp [findButton] at h
  | cons b bs ih =>
    unfold findButton at h
    by_cases hb : b.name = name
    · simp only [hb, if_true, Option.some.injEq] at h
      subst h
      exact ⟨b, by simp, hb⟩
    · simp only [hb, if_false] at h
      cases hr : findButton bs name with
      | none => simp [hr] at h
      | some j =>
        simp only [hr, Option.some.injEq] at h
        subst h
        simpa using ih hr

/-- An invariant of every handler is an invariant of every history. -/
theorem run_induction (P : State → Prop)
    (hstep : ∀ env s t, P s → P (step env s t)) :
    ∀ (evs : List (Env × Trigger)) (s : State), P s → P (run s evs) := by
  intro evs
  induction evs with
  | nil => intro s hs; exact hs
  | cons ev evs ih =>
    intro s hs
    exact ih (step ev.1 s ev.2) (hstep ev.1 s ev.2 hs)

theorem openCount_closeAll (p : Bool) (s : State) : openCount (closeAll p s) = 0 := by
  simp [openCount, List.countP_eq_zero]

theorem countP_modify_closed (f : DropdownPanel → DropdownPanel) :
    ∀ (l : List DropdownPanel) (n : Nat), (∀ d ∈ l, d.isOpen = false) →
      (l.modify f n).countP (fun d => d.isOpen) ≤ 1 := by
  intro l
  induction l with
  | nil => intro n _; simp
  | cons d ds ih =>
    intro n h
    have hd : d.isOpen = false := h d (List.mem_cons_self _ _)
    have hds : ∀ x ∈ ds, x.isOpen = false := fun x hx => h x (List.mem_cons_of_mem _ hx)
    cases n with
    | zero =>
      have h0 : ds.countP (fun d => d.isOpen) = 0 := by
        rw [List.countP_eq_zero]; intro x hx; simp [hds x hx]
      rw [List.modify_zero_cons, List.countP_cons, h0]
      split <;> simp
    | succ n =>
      rw [List.modify_succ_cons, List.countP_cons]
      simp [hd, ih n hds]

theorem openCount_openFor (env : Env) (name : String) (i : Nat) (p : Bool) (s : State)
    (h : openCount s ≤ 1) : openCount (openFor env name i p s) ≤ 1 := by
  unfold openFor
  split
  · exact h
  · simp only [openCount]
    apply countP_modify_closed
    intro d hd
    simp only [closeAll_dropdowns, List.mem_map] at hd
    obtain ⟨d0, _, rfl⟩ := hd
    rfl

theorem openCount_reposition (env : Env) (s : State) :
    openCount (reposition env s) = openCount s := by
  simp only [openCount, reposition, List.countP_map]
  congr 1
  funext d
  simp only [Function.comp, placePanel]
  split <;> simp_all

theorem openCount_documentClick (env : Env) (s : State) (h : openCount s ≤ 1) :
    openCount (documentClick env s) ≤ 1 := by
  unfold documentClick
  split
  · exact h
  · simp [openCount_closeAll]

theorem openCount_handle (env : Env) (s : State) (t : Trigger) (h : openCount s ≤ 1) :
    openCount (handle env s t) ≤ 1 := by
  cases t <;> simp only [handle] <;>
    repeat (first
      | exact h
      | (apply openCount_documentClick)
      | (apply openCount_openFor)
      | (rw [openCount_closeAll]; exact Nat.zero_le 1)
      | (rw [openCount_reposition]; exact h)
      | split)

theorem openCount_step (env : Env) (s : State) (t : Trigger) (h : openCount s ≤ 1) :
    openCount (step env s t) ≤ 1 := by
  unfold step
  split
  · exact openCount_handle env s t h
  · exact h

/-- C1: from a page whose panels are all closed, after every finite sequence of
triggers the number of panels with `open = true` is at most one. -/
theorem at_most_one_open (s0 : State) (h0 : ∀ d ∈ s0.dropdowns, d.isOpen = false)
    (evs : List (Env × Trigger)) : openCount (run s0 evs) ≤ 1 := by
  apply run_induction (fun s => openCount s ≤ 1) openCount_step
  have : openCount s0 = 0 := by
    simp only [openCount, List.countP_eq_zero]
    intro d hd
    simp [h0 d hd]
  omega

/-- Witness of C1 on the two-button page: click, hover the other button, let
its leave timer fire, re-enter the panel, resize. -/
theorem at_most_one_open_witness :
    (∀ d ∈ demoPage.dropdowns, d.isOpen = false) ∧
    openCount (run demoPage [(demoEnv, .click 0), (demoEnv, .mouseenter 1),
      (demoEnv, .leaveTimer 1), (demoEnv, .panelMouseenter 0), (demoEnv, .reposition)]) ≤ 1 :=
  ⟨by decide, at_most_one_open demoPage (by decide) _⟩

/-- C5: `closeAll(preservePinned)` closes every panel, keeps a pinned button
expanded and pinned when `preservePinned` is true, leaves every other button
unexpanded and unpinned, and zeroes the layout offset. -/
theorem closeAll_spec (preservePinned : Bool) (s : State) :
    (∀ d ∈ (closeAll preservePinned s).dropdowns, d.isOpen = false) ∧
    (closeAll preservePinned s).dropdowns.length = s.dropdowns.length ∧
    (closeAll preservePinned s).menuItems.length = s.menuItems.length ∧
    (∀ (i : Nat) (b : MenuButton), s.menuItems[i]? = some b →
      (closeAll preservePinned s).menuItems[i]? =
        some (if preservePinned = true ∧ b.pinned = true then MenuButton.mk b.name true true
              else MenuButton.mk b.name false false)) ∧
    (closeAll preservePinned s).offset = 0 := by
  refine ⟨?_, by simp, by simp, ?_, rfl⟩
  · intro d hd
    simp only [closeAll_dropdowns, List.mem_map] at hd
    obtain ⟨d0, _, rfl⟩ := hd
    rfl
  · intro i b hb
    simp only [closeAll_menuItems, List.getElem?_map, hb, Option.map_some', Option.some.injEq]
    obtain ⟨n, e, pin⟩ := b
    cases preservePinned <;> cases pin <;> simp [closeButton]

/-- Witness of C5: a soft close of a page with one pinned and one transient
button. -/
theorem closeAll_spec_witness :
    (closeAll true ⟨[⟨"services", true, true⟩, ⟨"about", true, false⟩],
        [⟨some "services", false, true, some 64⟩, ⟨some "about", true, false, some 64⟩], 200, true⟩).menuItems[0]?
      = some ⟨"services", true, true⟩ :=
  (closeAll_spec true ⟨[⟨"services", true, true⟩, ⟨"about", true, false⟩],
        [⟨some "services", false, true, some 64⟩, ⟨some "about", true, false, some 64⟩], 200, true⟩).2.2.2.1
    0 ⟨"services", true, true⟩ rfl

theorem closeButton_idem (b : MenuButton) :
    closeButton true (closeButton true b) = closeButton true b := by
  obtain ⟨n, e, pin⟩ := b
  cases pin <;> simp [closeButton]

/-- C8: `closeAll(true)` is idempotent on the whole state. -/
theorem closeAll_true_idempotent (s : State) :
    closeAll true (closeAll true s) = closeAll true s := by
  simp only [closeAll, List.map_map, State.mk.injEq, and_true]
  constructor
  · apply List.map_congr_left
    intro b _
    exact closeButton_idem b
  · apply List.map_congr_left
    intro d _
    rfl

theorem dropdownMapGet_none {l : List DropdownPanel} {name : String}
    (h : ∀ d ∈ l, d.forName ≠ some name) : dropdownMapGet l name = none := by
  induction l with
  | nil => rfl
  | cons d ds ih =>
    have hd : d.forName ≠ some name := h d (List.mem_cons_self _ _)
    simp [dropdownMapGet, ih (fun x hx => h x (List.mem_cons_of_mem _ hx)), hd]

/-- C9: when no panel carries `data-for = name`, `openFor(name, btn, {pinned})`
returns the state it was given: panels, buttons and offset are untouched. -/
theorem openFor_unregistered (env : Env) (s : State) (name : String) (btn : Nat) (pinned : Bool)
    (h : ∀ d ∈ s.dropdowns, d.forName ≠ some name) :
    openFor env name btn pinned s = s := by
  unfold openFor
  rw [dropdownMapGet_none h]

/-- Witness of C9: with the "about" panel open and pinned, opening the
unregistered name "contact" changes nothing. -/
theorem openFor_unregistered_witness :
    (∀ d ∈ (run demoPage [(demoEnv, .click 1)]).dropdowns, d.forName ≠ some "contact") ∧
    openFor demoEnv "contact" 0 true (run demoPage [(demoEnv, .click 1)])
      = run demoPage [(demoEnv, .click 1)] ∧
    panelOpen (run demoPage [(demoEnv, .click 1)]) "about" = true :=
  ⟨by decide, openFor_unregistered demoEnv _ "contact" 0 true (by decide), by decide⟩

/-! ## Pins and panels -/

theorem pinnedExpanded_closeAll (p : Bool) (s : State) : PinnedExpanded (closeAll p s) := by
  intro i b hb hp
  simp only [closeAll_menuItems, List.getElem?_map, Option.map_eq_some'] at hb
  obtain ⟨b0, _, rfl⟩ := hb
  rw [closeButton_pinned] at hp
  rw [closeButton_expanded, hp]

theorem pinnedExpanded_openFor (env : Env) (name : String) (j : Nat) (p : Bool) (s : State)
    (h : PinnedExpanded s) : PinnedExpanded (openFor env name j p s) := by
  unfold openFor
  split
  · exact h
  · intro i b hb hp
    simp only [List.getElem?_modify, Option.map_eq_map, Option.map_eq_some'] at hb
    obtain ⟨b1, hb1, rfl⟩ := hb
    by_cases hji : j = i
    · simp [hji]
    · simp only [hji, if_false] at hp ⊢
      exact pinnedExpanded_closeAll true s i b1 hb1 hp

theorem pinnedExpanded_documentClick (env : Env) (s : State) (h : PinnedExpanded s) :
    PinnedExpanded (documentClick env s) := by
  unfold documentClick
  split
  · exact h
  · exact pinnedExpanded_closeAll false s

theorem pinnedExpanded_handle (env : Env) (s : State) (t : Trigger) (h : PinnedExpanded s) :
    PinnedExpanded (handle env s t) := by
  cases t <;> simp only [handle] <;>
    repeat (first
      | exact h
      | (apply pinnedExpanded_documentClick)
      | (apply pinnedExpanded_openFor)
      | (apply pinnedExpanded_closeAll)
      | split)

theorem pinnedExpanded_step (env : Env) (s : State) (t : Trigger) (h : PinnedExpanded s) :
    PinnedExpanded (step env s t) := by
  unfold step
  split
  · exact pinnedExpanded_handle env s t h
  · exact h

/-- C2, as the code has it: from a page on which no button is pinned, after
every finite sequence of triggers every pinned button has `expanded = true`. -/
theorem pinned_implies_expanded (s0 : State) (h0 : ∀ b ∈ s0.menuItems, b.pinned = false)
    (evs : List (Env × Trigger)) (i : Nat) (b : MenuButton)
    (hb : (run s0 evs).menuItems[i]? = some b) (hp : b.pinned = true) : b.expanded = true := by
  refine run_induction PinnedExpanded pinnedExpanded_step evs s0 ?_ i b hb hp
  intro j c hc hcp
  have := h0 c (List.getElem?_mem hc)
  simp [this] at hcp

/-- Witness of the amended C2: after a click on "services" and a hover of
"about", "services" is pinned and expanded. -/
theorem pinned_implies_expanded_witness :
    (∀ b ∈ demoPage.menuItems, b.pinned = false) ∧
    (run demoPage [(demoEnv, .click 0), (demoEnv, .mouseenter 1)]).menuItems[0]?
      = some ⟨"services", true, true⟩ ∧
    (MenuButton.mk "services" true true).expanded = true :=
  ⟨by decide, by decide,
    pinned_implies_expanded demoPage (by decide)
      [(demoEnv, .click 0), (demoEnv, .mouseenter 1)] 0 ⟨"services", true, true⟩ (by decide) rfl⟩

/-- C2 fails as stated.  From the all-closed, unpinned page: the pointer
enters and leaves "about" twice, moves to "services", the first leave timer of
"about" fires, "services" is clicked (pinned and open), then the second leave
timer of "about" fires.  Its `closeAll(true)` closes the "services" panel and
keeps "services" pinned. -/
theorem pinned_implies_open_counterexample :
    (∀ d ∈ demoPage.dropdowns, d.isOpen = false) ∧
    (∀ b ∈ demoPage.menuItems, b.pinned = false) ∧
    panelOpen (run demoPage raceHistory) "services" = false ∧
    ¬ (∀ (i : Nat) (b : MenuButton),
        (run demoPage raceHistory).menuItems[i]? = some b →
        b.pinned = true →
        panelOpen (run demoPage raceHistory) b.name = true) := by
  refine ⟨by decide, by decide, by decide, fun h => ?_⟩
  have h1 := h 0 ⟨"services", true, true⟩ (by decide) rfl
  revert h1
  decide

/-- C3 at its failing input.  With "services" pinned, `openFor("about", about,
{pinned})` leaves "services" pinned for either value of the flag; Scenario A
(click, click) and Scenario C (click, pointer-enter) both end with "services"
still pinned and expanded while its panel is closed. -/
theorem openFor_keeps_other_pin :
    (openFor demoEnv "about" 1 true (run demoPage [(demoEnv, .click 0)])).menuItems[0]?
      = some ⟨"services", true, true⟩ ∧
    (openFor demoEnv "about" 1 false (run demoPage [(demoEnv, .click 0)])).menuItems[0]?
      = some ⟨"services", true, true⟩ ∧
    (run demoPage [(demoEnv, .click 0), (demoEnv, .click 1)]).menuItems
      = [⟨"services", true, true⟩, ⟨"about", true, true⟩] ∧
    (run demoPage [(demoEnv, .click 0), (demoEnv, .click 1)]).dropdowns
      = [⟨some "services", false, true, some 64⟩, ⟨some "about", true, false, some 64⟩] ∧
    (run demoPage [(demoEnv, .click 0), (demoEnv, .mouseenter 1)]).menuItems
      = [⟨"services", true, true⟩, ⟨"about", true, false⟩] := by
  decide

/-! ## Escape on a button -/

theorem closeAll_false_closeAll (p : Bool) (s : State) :
    closeAll false (closeAll p s) = closeAll false s := by
  simp only [closeAll, List.map_map, State.mk.injEq, and_true]
  constructor
  · apply List.map_congr_left
    intro b _
    obtain ⟨n, e, pin⟩ := b
    cases p <;> cases pin <;> simp [closeButton]
  · apply List.map_congr_left
    intro d _
    rfl

/-- C6, as the code has it: once both `keydown` listeners of a button have
run, Escape has performed the full close `closeAll(false)`: every panel is
closed, every button is unexpanded and unpinned, the offset is zero. -/
theorem escapeButton_full_close (env : Env) (s : State) (i : Nat) (hready : ready s = true)
    (hi : i < s.menuItems.length) :
    step env s (.escapeButton i) = closeAll false s ∧
    (∀ d ∈ (step env s (.escapeButton i)).dropdowns, d.isOpen = false) ∧
    (∀ b ∈ (step env s (.escapeButton i)).menuItems, b.expanded = false ∧ b.pinned = false) ∧
    (step env s (.escapeButton i)).offset = 0 := by
  have hstep : step env s (.escapeButton i) = closeAll false s := by
    simp only [step, hready, if_true, handle, List.getElem?_eq_getElem hi]
    split
    · rfl
    · exact closeAll_false_closeAll true s
  rw [hstep]
  refine ⟨rfl, ?_, ?_, rfl⟩
  · intro d hd
    simp only [closeAll_dropdowns, List.mem_map] at hd
    obtain ⟨d0, _, rfl⟩ := hd
    rfl
  · intro b hb
    simp only [closeAll_menuItems, List.mem_map] at hb
    obtain ⟨b0, _, rfl⟩ := hb
    simp [closeButton]

/-- Witness of the amended C6: Escape on the pinned "services" button. -/
theorem escapeButton_full_close_witness :
    ready (run demoPage [(demoEnv, .click 0)]) = true ∧
    0 < (run demoPage [(demoEnv, .click 0)]).menuItems.length ∧
    step demoEnv (run demoPage [(demoEnv, .click 0)]) (.escapeButton 0)
      = closeAll false (run demoPage [(demoEnv, .click 0)]) :=
  ⟨by decide, by decide, (escapeButton_full_close demoEnv _ 0 (by decide) (by decide)).1⟩

/-- C6 fails as stated: Escape on the focused, pinned "services" button
leaves that button neither pinned nor expanded. -/
theorem escapeButton_preserves_pin_counterexample :
    (run demoPage [(demoEnv, .click 0)]).menuItems[0]? = some ⟨"services", true, true⟩ ∧
    (step demoEnv (run demoPage [(demoEnv, .click 0)]) (.escapeButton 0)).menuItems[0]?
      = some ⟨"services", false, false⟩ := by
  decide

/-! ## The leave timer of a button -/

/-- C4, as the code has it: when the leave timer of button `i` fires, the
state is left unchanged whenever the button is pinned, the pointer is over its
panel, or the button itself has focus; and if the state changes, none of these
holds and the change is `closeAll(true)`. -/
theorem leaveTimer_guard (env : Env) (s : State) (i : Nat) (btn : MenuButton) (dd : Nat)
    (hb : s.menuItems[i]? = some btn)
    (hd : dropdownMapGet s.dropdowns btn.name = some dd) :
    ((btn.pinned = true ∨ env.panelHover dd = true ∨ env.activeIsButton i = true) →
      step env s (.leaveTimer i) = s) ∧
    (step env s (.leaveTimer i) ≠ s →
      btn.pinned = false ∧ env.panelHover dd = false ∧ env.activeIsButton i = false ∧
      step env s (.leaveTimer i) = closeAll true s) := by
  unfold step
  cases hr : ready s
  · simp
  · simp only [if_true, handle, hb, hd]
    by_cases hn : btn.name = ""
    · simp [hn]
    · cases hp : btn.pinned <;> cases hh : env.panelHover dd <;>
        cases hf : env.activeIsButton i <;> simp [hn]

/-- Witness of the amended C4: the timer of "about" fires while the pointer is
over the open "about" panel, and nothing changes. -/
theorem leaveTimer_guard_witness :
    (run demoPage hoverHistory).menuItems[1]? = some ⟨"about", true, false⟩ ∧
    dropdownMapGet (run demoPage hoverHistory).dropdowns "about" = some 1 ∧
    panelHoverEnv.panelHover 1 = true ∧
    step panelHoverEnv (run demoPage hoverHistory) (.leaveTimer 1) = run demoPage hoverHistory :=
  ⟨by decide, by decide, by decide,
    (leaveTimer_guard panelHoverEnv (run demoPage hoverHistory) 1
      ⟨"about", true, false⟩ 1 (by decide) (by decide)).1 (Or.inr (Or.inl (by decide)))⟩

/-- C4 fails as stated: with the "about" panel open by hover, the leave timer
of "about" closes it although the pointer is over the button again, and also
although the focus is inside the panel. -/
theorem leaveTimer_reentry_counterexample :
    reentryEnv.buttonHover 1 = true ∧
    panelOpen (run demoPage reentryHistory) "about" = true ∧
    step reentryEnv (run demoPage reentryHistory) (.leaveTimer 1) ≠ run demoPage reentryHistory ∧
    panelOpen (step reentryEnv (run demoPage reentryHistory) (.leaveTimer 1)) "about" = false ∧
    focusInPanelEnv.panelContainsActive 1 = true ∧
    panelOpen (run demoPage hoverHistory) "about" = true ∧
    step focusInPanelEnv (run demoPage hoverHistory) (.leaveTimer 1) ≠ run demoPage hoverHistory ∧
    panelOpen (step focusInPanelEnv (run demoPage hoverHistory) (.leaveTimer 1)) "about"
      = false := by
  decide

/-! ## `expanded` mirrors `open` -/

theorem map_modify_of_preserved {α β : Type} (g : α → β) (f : α → α) (hf : ∀ a, g (f a) = g a) :
    ∀ (l : List α) (n : Nat), (l.modify f n).map g = l.map g := by
  intro l
  induction l with
  | nil => intro n; simp
  | cons a as ih =>
    intro n
    cases n with
    | zero => simp [hf]
    | succ n => rw [List.modify_succ_cons]; simp [ih]

theorem names_closeAll (p : Bool) (s : State) :
    (closeAll p s).menuItems.map (fun b => b.name) = s.menuItems.map (fun b => b.name) := by
  simp [List.map_map, Function.comp]

theorem names_openFor (env : Env) (name : String) (j : Nat) (p : Bool) (s : State) :
    (openFor env name j p s).menuItems.map (fun b => b.name)
      = s.menuItems.map (fun b => b.name) := by
  unfold openFor
  split
  · rfl
  · simp only []
    rw [map_modify_of_preserved (fun b => b.name) (markButton p) (markButton_name p)]
    exact names_closeAll true s

theorem names_documentClick (env : Env) (s : State) :
    (documentClick env s).menuItems.map (fun b => b.name)
      = s.menuItems.map (fun b => b.name) := by
  unfold documentClick
  split
  · rfl
  · exact names_closeAll false s

theorem names_handle (env : Env) (s : State) (t : Trigger) :
    (handle env s t).menuItems.map (fun b => b.name) = s.menuItems.map (fun b => b.name) := by
  cases t <;> simp only [handle] <;>
    repeat (first
      | rfl
      | (rw [names_documentClick])
      | (rw [names_openFor])
      | (rw [names_closeAll])
      | split)

theorem names_step (env : Env) (s : State) (t : Trigger) :
    (step env s t).menuItems.map (fun b => b.name) = s.menuItems.map (fun b => b.name) := by
  unfold step
  split
  · exact names_handle env s t
  · rfl

theorem names_inj {s : State} (h : NamesNodup s) {i j : Nat} {a b : MenuButton}
    (ha : s.menuItems[i]? = some a) (hb : s.menuItems[j]? = some b)
    (hab : a.name = b.name) : i = j := by
  obtain ⟨hi, rfl⟩ := List.getElem?_eq_some.1 ha
  obtain ⟨hj, rfl⟩ := List.getElem?_eq_some.1 hb
  have hi2 : i < (s.menuItems.map (fun b => b.name)).length := by simpa using hi
  have hj2 : j < (s.menuItems.map (fun b => b.name)).length := by simpa using hj
  have key := (@List.Nodup.getElem_inj_iff _ _ h i hi2 j hj2).1
  apply key
  simpa using hab

theorem panelOpen_closeAll (p : Bool) (s : State) (name : String) :
    panelOpen (closeAll p s) name = false := by
  unfold panelOpen
  split
  · rfl
  · rename_i k _
    simp only [closeAll_dropdowns, List.getElem?_map]
    cases s.dropdowns[k]? <;> rfl

theorem mirror_closeAll (p : Bool) (s : State) : Mirror (closeAll p s) := by
  intro i b hb hp
  rw [panelOpen_closeAll]
  simp only [closeAll_menuItems, List.getElem?_map, Option.map_eq_some'] at hb
  obtain ⟨b0, _, rfl⟩ := hb
  rw [closeButton_pinned] at hp
  rw [closeButton_expanded, hp]

theorem mirror_openFor (env : Env) (name : String) (j : Nat) (p : Bool) (s : State)
    (bj : MenuButton) (hj : s.menuItems[j]? = some bj) (hname : bj.name = name)
    (hnd : NamesNodup s) (h : Mirror s) : Mirror (openFor env name j p s) := by
  unfold openFor
  split
  · exact h
  · rename_i dd hdd
    obtain ⟨d, hd, hdn⟩ := dropdownMapGet_some hdd
    intro i b hb hp
    simp only [List.getElem?_modify, closeAll_menuItems, List.getElem?_map, Option.map_eq_map,
      Option.map_eq_some'] at hb
    obtain ⟨b1, ⟨b0, hb0, rfl⟩, rfl⟩ := hb
    have hlook : ∀ n, dropdownMapGet
        (List.modify (openPanel env) dd (closeAll true s).dropdowns) n
        = dropdownMapGet s.dropdowns n := by
      intro n
      rw [dropdownMapGet_modify _ (openPanel_forName env), closeAll_dropdowns,
        dropdownMapGet_map _ closePanel_forName]
    by_cases hji : j = i
    · subst hji
      rw [hj] at hb0
      simp only [Option.some.injEq] at hb0
      subst hb0
      simp only [if_true, markButton_expanded, markButton_name, closeButton_name, panelOpen,
        hlook, hname, hdd]
      simp [List.getElem?_modify, hd]
    · have hne : b0.name ≠ name := by
        intro he
        exact hji (names_inj hnd hj hb0 (by rw [hname, he]))
      simp only [hji, if_false] at hp ⊢
      rw [closeButton_pinned] at hp
      rw [closeButton_expanded, hp, closeButton_name]
      simp only [panelOpen, hlook]
      cases hk : dropdownMapGet s.dropdowns b0.name with
      | none => rfl
      | some k =>
        obtain ⟨d1, hd1, hd1n⟩ := dropdownMapGet_some hk
        have hkd : dd ≠ k := by
          intro he
          subst he
          rw [hd] at hd1
          simp only [Option.some.injEq] at hd1
          subst hd1
          rw [hdn] at hd1n
          simp only [Option.some.injEq] at hd1n
          exact hne hd1n.symm
        simp [List.getElem?_modify, hd1, hkd]

theorem placePanel_isOpen (env : Env) (d : DropdownPanel) :
    (placePanel env d).isOpen = d.isOpen := by
  unfold placePanel; split <;> rfl

theorem placePanel_forName (env : Env) (d : DropdownPanel) :
    (placePanel env d).forName = d.forName := by
  unfold placePanel; split <;> rfl

theorem panelOpen_reposition (env : Env) (s : State) (name : String) :
    panelOpen (reposition env s) name = panelOpen s name := by
  simp only [panelOpen, reposition, dropdownMapGet_map _ (placePanel_forName env)]
  cases dropdownMapGet s.dropdowns name with
  | none => rfl
  | some k =>
    simp only [List.getElem?_map]
    cases s.dropdowns[k]? with
    | none => rfl
    | some d => simp [placePanel_isOpen]

theorem mirror_reposition (env : Env) (s : State) (h : Mirror s) : Mirror (reposition env s) := by
  intro i b hb hp
  rw [panelOpen_reposition]
  exact h i b hb hp

theorem mirror_documentClick (env : Env) (s : State) (h : Mirror s) :
    Mirror (documentClick env s) := by
  unfold documentClick
  split
  · exact h
  · exact mirror_closeAll false s

theorem mirror_handle (env : Env) (s : State) (t : Trigger) (hnd : NamesNodup s)
    (h : Mirror s) : Mirror (handle env s t) := by
  cases t with
  | click i =>
    simp only [handle]
    cases hb : s.menuItems[i]? with
    | none => exact h
    | some btn =>
      apply mirror_documentClick
      split
      · exact h
      · split
        · exact mirror_closeAll false s
        · exact mirror_openFor env btn.name i true s btn hb rfl hnd h
  | mouseenter i =>
    simp only [handle]
    cases hb : s.menuItems[i]? with
    | none => exact h
    | some btn =>
      simp only []
      split
      · exact h
      · split
        · exact h
        · exact mirror_openFor env btn.name i false s btn hb rfl hnd h
  | focus i =>
    simp only [handle]
    cases hb : s.menuItems[i]? with
    | none => exact h
    | some btn =>
      simp only []
      split
      · exact h
      · split
        · exact h
        · exact mirror_openFor env btn.name i false s btn hb rfl hnd h
  | mouseleave i => exact h
  | blur i => exact h
  | panelMouseleave k => exact h
  | leaveTimer i =>
    simp only [handle]
    repeat (first | exact h | exact mirror_closeAll true s | split)
  | blurTimer i =>
    simp only [handle]
    repeat (first | exact h | exact mirror_closeAll true s | split)
  | escapeButton i =>
    simp only [handle]
    repeat (first | exact h | apply mirror_closeAll | split)
  | panelMouseenter k =>
    simp only [handle]
    cases s.dropdowns[k]? with
    | none => exact h
    | some dd =>
      simp only []
      cases dd.forName with
      | none => exact h
      | some name =>
        simp only []
        cases hf : findButton s.menuItems name with
        | none => exact h
        | some i =>
          simp only []
          obtain ⟨b, hb, hbn⟩ := findButton_some hf
          rw [hb]
          exact mirror_openFor env name i b.pinned s b hb hbn hnd h
  | panelLeaveTimer => exact mirror_closeAll true s
  | escapePanel k =>
    simp only [handle]
    split
    · exact h
    · exact mirror_closeAll false s
  | documentClick => exact mirror_documentClick env s h
  | reposition => exact mirror_reposition env s h
  | measure k =>
    simp only [handle]
    split
    · exact h
    · exact h

theorem mirror_step (env : Env) (s : State) (t : Trigger) (hnd : NamesNodup s) (h : Mirror s) :
    Mirror (step env s t) := by
  unfold step
  split
  · exact mirror_handle env s t hnd h
  · exact h

/-- C7: when no two buttons share a name and the page starts with every panel
closed and every button unexpanded and unpinned, then after every finite
sequence of triggers each unpinned button has `expanded = true` exactly when
the panel registered under its name is open. -/
theorem expanded_mirrors_open (s0 : State)
    (hnames : (s0.menuItems.map (fun b => b.name)).Nodup)
    (hclosed : ∀ d ∈ s0.dropdowns, d.isOpen = false)
    (hbuttons : ∀ b ∈ s0.menuItems, b.expanded = false ∧ b.pinned = false)
    (evs : List (Env × Trigger)) (i : Nat) (b : MenuButton)
    (hb : (run s0 evs).menuItems[i]? = some b) (hp : b.pinned = false) :
    b.expanded = true ↔ panelOpen (run s0 evs) b.name = true := by
  have hinv : NamesNodup (run s0 evs) ∧ Mirror (run s0 evs) := by
    apply run_induction (fun s => NamesNodup s ∧ Mirror s)
    · intro env s t hs
      refine ⟨?_, mirror_step env s t hs.1 hs.2⟩
      unfold NamesNodup
      rw [names_step]
      exact hs.1
    · refine ⟨hnames, ?_⟩
      intro j c hc _
      have hce : c.expanded = false := (hbuttons c (List.getElem?_mem hc)).1
      rw [hce]
      unfold panelOpen
      cases hk : dropdownMapGet s0.dropdowns c.name with
      | none => rfl
      | some k =>
        obtain ⟨d, hd, _⟩ := dropdownMapGet_some hk
        simp only [hd]
        exact (hclosed d (List.getElem?_mem hd)).symm
  rw [hinv.2 i b hb hp]

/-- Witness of C7: after hovering "about", the unpinned "about" button is
expanded and its panel is open. -/
theorem expanded_mirrors_open_witness :
    (demoPage.menuItems.map (fun b => b.name)).Nodup ∧
    (run demoPage [(demoEnv, .click 0), (demoEnv, .mouseenter 1)]).menuItems[1]?
      = some ⟨"about", true, false⟩ ∧
    ((MenuButton.mk "about" true false).expanded = true ↔
      panelOpen (run demoPage [(demoEnv, .click 0), (demoEnv, .mouseenter 1)]) "about" = true) :=
  ⟨by decide, by decide,
    expanded_mirrors_open demoPage (by decide) (by decide) (by decide)
      [(demoEnv, .click 0), (demoEnv, .mouseenter 1)] 1 ⟨"about", true, false⟩ (by decide) rfl⟩

end Dropdown

namespace Geometry

/-! ## Geometry sync and its breakpoints -/

theorem setHeight_self (st : Store) (id : Nat) (v : CssValue) :
    (setHeight st id v id).height = v := by
  simp [setHeight]

theorem setHeight_keeps_empty (st : Store) (id x : Nat) (h : (st x).height = .empty) :
    (setHeight st id .empty x).height = .empty := by
  unfold setHeight
  split
  · rfl
  · exact h

theorem clearImage_keeps_empty (st : Store) (i x : Nat) (h : (st x).height = .empty) :
    (clearImage st i x).height = .empty := by
  unfold clearImage
  split
  · rfl
  · exact h

theorem clearGrid_keeps_empty (st : Store) (g : Grid) (x : Nat)
    (h : (st x).height = .empty) : (clearGrid st g x).height = .empty := by
  unfold clearGrid
  cases (findPair g).imgCol with
  | none => exact h
  | some c =>
    simp only []
    cases c.img with
    | none => exact setHeight_keeps_empty st c.id x h
    | some i => exact clearImage_keeps_empty _ i x (setHeight_keeps_empty st c.id x h)

theorem clearGrid_sets (st : Store) (g : Grid) (c : Element)
    (hc : (findPair g).imgCol = some c) : (clearGrid st g c.id).height = .empty := by
  unfold clearGrid
  rw [hc]
  simp only []
  cases c.img with
  | none => exact setHeight_self st c.id .empty
  | some i => exact clearImage_keeps_empty _ i c.id (setHeight_self st c.id .empty)

theorem foldl_clearGrid_keeps (x : Nat) :
    ∀ (grids : List Grid) (st : Store), (st x).height = .empty →
      (grids.foldl clearGrid st x).height = .empty := by
  intro grids
  induction grids with
  | nil => intro st h; exact h
  | cons g gs ih =>
    intro st h
    exact ih (clearGrid st g) (clearGrid_keeps_empty st g x h)

theorem foldl_clearGrid_sets (g : Grid) (c : Element) (hc : (findPair g).imgCol = some c) :
    ∀ (grids : List Grid) (st : Store), g ∈ grids →
      (grids.foldl clearGrid st c.id).height = .empty := by
  intro grids
  induction grids with
  | nil => intro st h; simp at h
  | cons g0 gs ih =>
    intro st h
    rcases List.mem_cons.1 h with rfl | hmem
    · exact foldl_clearGrid_keeps c.id gs _ (clearGrid_sets st g c hc)
    · exact ih (clearGrid st g0) hmem

theorem sizeGrid_untouched (st : Store) (g : Grid) (x : Nat) (h : touches g x = false) :
    sizeGrid st g x = st x := by
  unfold touches at h
  unfold sizeGrid
  cases ht : (findPair g).textCol with
  | none => rfl
  | some t =>
    cases hc : (findPair g).imgCol with
    | none => rfl
    | some c =>
      simp only [ht, hc, Bool.or_eq_false_iff, decide_eq_false_iff_not] at h
      have hx : ¬ x = c.id := fun e => h.1 e.symm
      simp only []
      cases hi : c.img with
      | none => simp [setHeight, hx]
      | some i =>
        have hxi : ¬ x = i := fun e => h.2 (by rw [hi, e])
        simp [fillImage, setHeight, hx, hxi]

theorem foldl_sizeGrid_untouched (x : Nat) :
    ∀ (grids : List Grid) (st : Store), (∀ g ∈ grids, touches g x = false) →
      grids.foldl sizeGrid st x = st x := by
  intro grids
  induction grids with
  | nil => intro st _; rfl
  | cons g gs ih =>
    intro st h
    rw [List.foldl_cons, ih (sizeGrid st g) (fun g1 hg1 => h g1 (List.mem_cons_of_mem _ hg1))]
    exact sizeGrid_untouched st g x (h g (List.mem_cons_self _ _))

theorem sizeGrid_sets (st : Store) (g : Grid) (t c : Element)
    (ht : (findPair g).textCol = some t) (hc : (findPair g).imgCol = some c)
    (himg : c.img ≠ some c.id) : (sizeGrid st g c.id).height = .px (textHeight t) := by
  unfold sizeGrid
  rw [ht, hc]
  simp only []
  cases hi : c.img with
  | none => exact setHeight_self _ c.id _
  | some i =>
    have hne : ¬ c.id = i := fun e => himg (by rw [hi, e])
    simp only [fillImage, hne, if_false]
    exact setHeight_self _ c.id _

/-- C10: `syncHeight` (breakpoint 900) and `syncGrids` (breakpoint 940).
Below the breakpoint the image column's inline height ends empty, whatever the
text measures; above it, with both columns resolved, it ends as the measured
height of the text column in pixels (for a grid, provided the grids that follow
it in the list do not write the same element and the column is not its own
image). -/
theorem sync_breakpoints :
    (∀ (w t c : Nat) (rect : ℚ) (st : Store), w < 900 →
      (syncHeight w (some t) (some c) rect st c).height = .empty) ∧
    (∀ (w t c : Nat) (rect : ℚ) (st : Store), 900 < w →
      (syncHeight w (some t) (some c) rect st c).height = .px (jsRound (.finite rect))) ∧
    (∀ (w : Nat) (grids : List Grid) (st : Store) (g : Grid) (c : Element), w < 940 →
      g ∈ grids → (findPair g).imgCol = some c →
      (syncGrids w grids st c.id).height = .empty) ∧
    (∀ (w : Nat) (pre post : List Grid) (g : Grid) (st : Store) (t c : Element), 940 < w →
      (findPair g).textCol = some t → (findPair g).imgCol = some c → c.img ≠ some c.id →
      (∀ g1 ∈ post, touches g1 c.id = false) →
      (syncGrids w (pre ++ g :: post) st c.id).height = .px (textHeight t)) := by
  refine ⟨?_, ?_, ?_, ?_⟩
  · intro w t c rect st hw
    have : w ≤ contactBreakpoint := by unfold contactBreakpoint; omega
    simp only [syncHeight, this, if_true]
    exact setHeight_self st c .empty
  · intro w t c rect st hw
    have : ¬ w ≤ contactBreakpoint := by unfold contactBreakpoint; omega
    simp only [syncHeight, this, if_false]
    exact setHeight_self st c _
  · intro w grids st g c hw hg hc
    have hne : grids.isEmpty = false := by
      cases grids with
      | nil => simp at hg
      | cons _ _ => rfl
    have : w ≤ gridBreakpoint := by unfold gridBreakpoint; omega
    simp only [syncGrids, hne, this, if_true, Bool.false_eq_true, if_false]
    exact foldl_clearGrid_sets g c hc grids st hg
  · intro w pre post g st t c hw ht hc himg hpost
    have hne : (pre ++ g :: post).isEmpty = false := by
      cases pre <;> rfl
    have : ¬ w ≤ gridBreakpoint := by unfold gridBreakpoint; omega
    simp only [syncGrids, hne, this, if_false, Bool.false_eq_true, List.foldl_append,
      List.foldl_cons]
    rw [foldl_sizeGrid_untouched c.id post _ hpost]
    exact sizeGrid_sets _ g t c ht hc himg

/-- Witness of the amended C10 on the demo grid: at 800px the figure's forced
height is cleared; at 1200px it is the text column's measured height, the
double printed as 413.33333400000004 (412 plus two borders of 0.666667px,
added as doubles); `syncHeight` clears at 899px and writes 412px at 901px. -/
theorem sync_breakpoints_witness :
    (syncGrids 800 [demoGrid] (syncGrids 1200 [demoGrid] emptyStore) 1).height = .empty ∧
    (syncGrids 1200 ([] ++ demoGrid :: []) emptyStore 1).height
      = .px (.finite (3635718455043369 / 8796093022208)) ∧
    (syncHeight 899 (some 2) (some 1) 412.4 emptyStore 1).height = .empty ∧
    (syncHeight 901 (some 2) (some 1) 412.4 emptyStore 1).height = .px (.finite 412) := by
  have hc : (findPair demoGrid).imgCol = some demoFigure := by decide!
  have ht : (findPair demoGrid).textCol = some demoText := by decide!
  have hh : textHeight demoText = .finite (3635718455043369 / 8796093022208) := by decide!
  have hr : jsRound (.finite 412.4) = .finite 412 := by decide!
  refine ⟨?_, ?_, ?_, ?_⟩
  · exact sync_breakpoints.2.2.1 800 [demoGrid] _ demoGrid _ (by norm_num)
      (List.mem_singleton.2 rfl) hc
  · rw [← hh]
    exact sync_breakpoints.2.2.2 1200 [] [] demoGrid emptyStore _ _ (by norm_num) ht hc
      (by decide) (by simp)
  · exact sync_breakpoints.1 899 2 1 412.4 emptyStore (by norm_num)
  · rw [← hr]
    exact sync_breakpoints.2.1 901 2 1 412.4 emptyStore (by norm_num)

/-- C10 fails as stated for grids that share an image column.  At 1200px, the
outer grid resolves both columns (text `outerText`, image column the inner
grid element), yet after `syncGrids` that element's height is the inner grid's
120px, not the 300px measured on the outer grid's text. -/
theorem nested_grids_counterexample :
    (findPair outerGrid).textCol = some outerText ∧
    (findPair outerGrid).imgCol = some innerGridElement ∧
    textHeight outerText = .finite 300 ∧
    (syncGrids 1200 [outerGrid, innerGrid] emptyStore innerGridElement.id).height
      = .px (.finite 120) ∧
    (syncGrids 1200 [outerGrid, innerGrid] emptyStore innerGridElement.id).height
      ≠ .px (textHeight outerText) := by
  decide!

end Geometry
